import Mathlib

/-!
Shallow embedding of `TableFacadeInitializer`
(`libs/sdk-ui-pivot/src/impl/tableFacadeInitializer.ts`).

The component drives a two-phase asynchronous fetch: it calls `execute()` on a
prepared execution, then `readWindow([0,0], [pageSize, COLS_PER_PAGE])` on the
resulting execution result, and reports progress through a fixed callback set
(`onLoadingChanged`, `onExportReady`, `pushData`, `onError`).  A boolean
`abandoned` flag, set by `abandon()`, suppresses all callback emission from the
continuations and forces the returned promise to resolve with `undefined`.

The embedding is a deterministic function from a *scenario* — the outcomes of
the two asynchronous steps together with the point at which `abandon()` is
called, if ever — to the emitted event trace and the resolution value of the
returned promise.  Each trace entry is paired with the value the `abandoned`
flag holds at the moment the event is emitted, so that flag-gating properties
can be stated directly.  The JavaScript event loop is single-threaded, so the
continuations run atomically and the flag can only change between them; the
scenario's abandon point enumerates exactly those observable interleavings.
-/

namespace GdcPivot

deriving instance DecidableEq for Except

/-- Opaque handle for a not-yet-run execution (`IPreparedExecution` in the
source).  The initializer only ever calls `execute()` on it and passes it to
`onError`; its identity is all that matters. -/
structure IPreparedExecution where
  id : Nat
  deriving DecidableEq, Repr

/-- Opaque execution result returned by a successful `execute()`
(`IExecutionResult` in the source); the initializer calls `readWindow` on it
and hands it to the facade and to drill-target extraction. -/
structure IExecutionResult where
  id : Nat
  deriving DecidableEq, Repr

/-- Opaque page of fetched data (`IDataView` in the source), passed unmodified
to the caller's callbacks and into the facade. -/
structure IDataView where
  id : Nat
  deriving DecidableEq, Repr

/-- Errors with which `execute()` or `readWindow()` may reject, as consumed by
the initializer's classifiers.  In `@gooddata/sdk-backend-spi`, `NoDataError`
and `UnexpectedResponseError` are distinct classes, so the classifiers are
disjoint; `NoDataError` optionally carries a partial data view
(`error.dataView`), and everything else is some other error. -/
inductive TableError where
  | noData (dataView : Option IDataView)
  | unexpectedResponse
  | other (code : Nat)
  deriving DecidableEq, Repr

/-- Models `isNoDataError` from `@gooddata/sdk-backend-spi`: true exactly on
"no data" errors. -/
def isNoDataError : TableError → Bool
  | .noData _ => true
  | _ => false

/-- Models `isUnexpectedResponseError` from `@gooddata/sdk-backend-spi`: true
exactly on "unexpected response" errors. -/
def isUnexpectedResponseError : TableError → Bool
  | .unexpectedResponse => true
  | _ => false

/-- The `error.dataView` property read by the source's "no data" branch: the
data view attached to a `NoDataError`, if any; absent on other errors. -/
def errorDataView : TableError → Option IDataView
  | .noData dv => dv
  | _ => none

/-- Result of `convertError` from `@gooddata/sdk-ui`: an external, injective
conversion of a backend error into a GoodData SDK error.  Modelled as a free
wrapper, which preserves exactly the information the claims need: which source
error the reported error was converted from. -/
inductive ConvertedError where
  | ofError (e : TableError)
  deriving DecidableEq, Repr

/-- Models `convertError` from `@gooddata/sdk-ui` (external collaborator). -/
def convertError (e : TableError) : ConvertedError := .ofError e

/-- Models `DataViewFacade` from `@gooddata/sdk-ui`: a read-only wrapper around
a data view. -/
structure DataViewFacade where
  dataView : IDataView
  deriving DecidableEq, Repr

/-- Models `DataViewFacade.for(dataView)`: wrap a data view in a facade. -/
def dataViewFacadeFor (dv : IDataView) : DataViewFacade := ⟨dv⟩

/-- The data content of `ICorePivotTableProps` consumed by the initializer:
`pageSize` (row count of the first-page read; the source asserts it non-null
with `this.props.pageSize!`) and `exportTitle`.  The `pushData` member of the
props is a callback and is modelled as a trace event instead. -/
structure TableProps where
  pageSize : Nat
  exportTitle : Option String
  deriving DecidableEq, Repr

/-- Modelled from the spec: the `TableFacade` built by `createTableFacade` —
"the fully-initialized output object, constructed only on the success path,
wrapping the execution result, the data view, configuration, and original
props" (the class itself lives in `impl/tableFacade.ts`, outside the provided
sources).  The configuration member is the callback set, which the embedding
represents as trace events, so the facade keeps the data components. -/
structure TableFacade where
  result : IExecutionResult
  dataView : IDataView
  props : TableProps
  deriving DecidableEq, Repr

/-- Modelled from the spec: the value of
`table.createExportFunction(this.props.exportTitle)` — "a closure capturing
the facade and an export title" — passed to `onExportReady`. -/
structure ExportFunction where
  table : TableFacade
  exportTitle : Option String
  deriving DecidableEq, Repr

/-- Modelled from the spec: the drill-target metadata produced by the three
external extraction routes.  Each route is a free constructor recording its
argument, which is exactly what distinguishes the claims' cases: targets from
the facade (success path), from a data-view facade ("no data" branch), or
straight from the execution result ("unexpected response" branch). -/
inductive AvailableDrillTargets where
  | ofTableFacade (t : TableFacade)
  | ofDataViewFacade (f : DataViewFacade)
  | ofExecutionResult (r : IExecutionResult)
  deriving DecidableEq, Repr

/-- Modelled from the spec: `table.getAvailableDrillTargets()` — "compute
available drill targets from the facade" (method of `TableFacade`, outside the
provided sources). -/
def TableFacade.getAvailableDrillTargets (t : TableFacade) : AvailableDrillTargets :=
  .ofTableFacade t

/-- Models `getAvailableDrillTargets` from `impl/drilling/drillTargets.ts`
(external collaborator): drill targets computed from a data-view facade. -/
def getAvailableDrillTargets (f : DataViewFacade) : AvailableDrillTargets :=
  .ofDataViewFacade f

/-- Models `getAvailableDrillTargetsFromExecutionResult` from
`impl/drilling/drillTargets.ts` (external collaborator): drill targets
computed directly from an execution result. -/
def getAvailableDrillTargetsFromExecutionResult (r : IExecutionResult) : AvailableDrillTargets :=
  .ofExecutionResult r

/-- Modelled from the spec: `COLS_PER_PAGE` from `impl/base/constants.ts` (not
among the provided sources) — "a fixed column count constant" bounding the
width of the first-page `readWindow`.  The claims depend only on it being a
fixed constant; 1000 is the value shipped by the library. -/
def COLS_PER_PAGE : Nat := 1000

/-- The payload object passed to a `pushData` callback: an optional `dataView`
member and the computed `availableDrillTargets`.  The success path passes
`{dataView, availableDrillTargets}`; both error branches pass only
`{availableDrillTargets}`. -/
structure PushDataPayload where
  dataView : Option IDataView
  availableDrillTargets : AvailableDrillTargets
  deriving DecidableEq, Repr

/-- Observable events of one run: the four callback invocations plus the two
outbound API invocations (`execution.execute()` and `result.readWindow`).
`configPushData` is `config.pushData` (from `TableConfig`), `propsPushData` is
`this.props.pushData!` — the source invokes both, on different branches. -/
inductive TableEvent where
  | onLoadingChanged (isLoading : Bool)
  | onExportReady (f : ExportFunction)
  | configPushData (p : PushDataPayload)
  | propsPushData (p : PushDataPayload)
  | onError (e : ConvertedError) (execution : IPreparedExecution)
  | executeCall (execution : IPreparedExecution)
  | readWindowCall (result : IExecutionResult) (offset : Nat × Nat) (size : Nat × Nat)
  deriving DecidableEq, Repr

/-- True on the caller-facing callback invocations (the "configuration
callback" events), false on the two outbound API invocations. -/
def TableEvent.isCallbackEvent : TableEvent → Bool
  | .onLoadingChanged _ => true
  | .onExportReady _ => true
  | .configPushData _ => true
  | .propsPushData _ => true
  | .onError _ _ => true
  | .executeCall _ => false
  | .readWindowCall _ _ _ => false

/-- The point, relative to the run's two suspension points, at which the owner
calls `abandon()`.  The event loop is single-threaded, so these five cases are
the only observably distinct interleavings of a single `abandon()` call with
the run: never; before the call to `initialize` itself; after `initialize`
returned but before the execute promise settles; after execute settled but
before the read-window promise settles; after every continuation has run. -/
inductive AbandonPoint where
  | never
  | beforeStart
  | beforeExecuteSettles
  | beforeReadSettles
  | afterSettled
  deriving DecidableEq, Repr

/-- One complete behaviour of the environment for a single run: the execution
handle and props given to the constructor, the outcome each asynchronous step
would produce (the operations always run to completion — abandonment does not
cancel them), and the abandon point. -/
structure Scenario where
  execution : IPreparedExecution
  props : TableProps
  executeOutcome : Except TableError IExecutionResult
  readOutcome : Except TableError IDataView
  abandonAt : AbandonPoint
  deriving DecidableEq, Repr

/-- Value of the `abandoned` flag while the synchronous part of `initialize`
runs (only an abandon that precedes the call can be visible there). -/
def Scenario.abandonedAtStart (s : Scenario) : Bool :=
  match s.abandonAt with
  | .beforeStart => true
  | _ => false

/-- Value of the `abandoned` flag when the continuation attached to the
execute promise runs. -/
def Scenario.abandonedAtExecuteSettle (s : Scenario) : Bool :=
  match s.abandonAt with
  | .beforeStart | .beforeExecuteSettles => true
  | _ => false

/-- Value of the `abandoned` flag when the continuation attached to the
read-window promise runs. -/
def Scenario.abandonedAtReadSettle (s : Scenario) : Bool :=
  match s.abandonAt with
  | .beforeStart | .beforeExecuteSettles | .beforeReadSettles => true
  | _ => false

/-- Result of one run: the trace of emitted events, each paired with the value
of the `abandoned` flag at the moment of emission, and the value the returned
promise resolves with.  `outcome = none` is JavaScript `undefined`, which is
both the error-path resolution value and the post-abandonment "no result"
sentinel (`Promise<TableFacade | undefined>`); the promise itself never
rejects, which the embedding renders by the run being a total function into
this type. -/
structure InitRun where
  trace : List (Bool × TableEvent)
  outcome : Option TableFacade
  deriving DecidableEq, Repr

/-- Models `createTableFacade`: `new TableFacade(result, dataView, this.config,
this.props)`. -/
def createTableFacade (s : Scenario) (result : IExecutionResult) (dataView : IDataView) :
    TableFacade :=
  { result := result, dataView := dataView, props := s.props }

/-- Shallow embedding of `TableFacadeInitializer.initialize` (source lines
43–111), evaluated against a scenario.  Mirrors the promise chain:

* synchronously, `config.onLoadingChanged({isLoading: true})` and the
  `execution.execute()` call;
* if execute rejects, the outer `catch`: return `undefined` if abandoned,
  otherwise `config.onError(convertError(error), this.execution)` and resolve
  `undefined`;
* if execute resolves, call
  `result.readWindow([0, 0], [this.props.pageSize!, COLS_PER_PAGE])`;
* if the read resolves: return `undefined` if abandoned; otherwise build the
  facade, `config.onLoadingChanged({isLoading: false})`,
  `config.onExportReady(table.createExportFunction(this.props.exportTitle))`,
  `config.pushData({dataView, availableDrillTargets})`, resolve with the
  facade;
* if the read rejects, the inner `catch`: return `undefined` if abandoned;
  otherwise, when `isUnexpectedResponseError(error)`,
  `this.props.pushData!({availableDrillTargets})` with targets from the
  execution result; when `isNoDataError(error) && error.dataView`,
  `config.pushData({availableDrillTargets})` with targets from
  `DataViewFacade.for(error.dataView)` followed by
  `config.onLoadingChanged({isLoading: false})`; in every case
  `config.onError(convertError(error), this.execution)` and resolve
  `undefined`. -/
def initRun (s : Scenario) : InitRun :=
  let aStart := s.abandonedAtStart
  let aExec := s.abandonedAtExecuteSettle
  let aRead := s.abandonedAtReadSettle
  let syncPart : List (Bool × TableEvent) :=
    [(aStart, .onLoadingChanged true), (aStart, .executeCall s.execution)]
  match s.executeOutcome with
  | .error e =>
      if aExec then
        { trace := syncPart, outcome := none }
      else
        { trace := syncPart ++ [(false, .onError (convertError e) s.execution)],
          outcome := none }
  | .ok result =>
      let readCall : List (Bool × TableEvent) :=
        [(aExec, .readWindowCall result (0, 0) (s.props.pageSize, COLS_PER_PAGE))]
      match s.readOutcome with
      | .ok dataView =>
          if aRead then
            { trace := syncPart ++ readCall, outcome := none }
          else
            let table := createTableFacade s result dataView
            { trace := syncPart ++ readCall ++
                [(false, .onLoadingChanged false),
                 (false, .onExportReady ⟨table, s.props.exportTitle⟩),
                 (false, .configPushData ⟨some dataView, table.getAvailableDrillTargets⟩)],
              outcome := some table }
      | .error e =>
          if aRead then
            { trace := syncPart ++ readCall, outcome := none }
          else
            let unexpectedPart : List (Bool × TableEvent) :=
              if isUnexpectedResponseError e then
                [(false, .propsPushData
                    ⟨none, getAvailableDrillTargetsFromExecutionResult result⟩)]
              else []
            let noDataPart : List (Bool × TableEvent) :=
              if isNoDataError e then
                match errorDataView e with
                | some dv =>
                    [(false, .configPushData
                        ⟨none, getAvailableDrillTargets (dataViewFacadeFor dv)⟩),
                     (false, .onLoadingChanged false)]
                | none => []
              else []
            { trace := syncPart ++ readCall ++ unexpectedPart ++ noDataPart ++
                [(false, .onError (convertError e) s.execution)],
              outcome := none }

/-- The emitted events of a run, without the flag annotations. -/
def InitRun.events (r : InitRun) : List TableEvent := r.trace.map Prod.snd

/-- The callback events a run emits while the `abandoned` flag is `true`. -/
def InitRun.callbacksWhileAbandoned (r : InitRun) : List TableEvent :=
  (r.trace.filter fun p => p.1 && p.2.isCallbackEvent).map Prod.snd

/-- True exactly on `onError` events. -/
def TableEvent.isOnError : TableEvent → Bool
  | .onError _ _ => true
  | _ => false

/-- True exactly on `execution.execute()` invocation events. -/
def TableEvent.isExecuteCall : TableEvent → Bool
  | .executeCall _ => true
  | _ => false

/-- True exactly on `readWindow` invocation events. -/
def TableEvent.isReadWindowCall : TableEvent → Bool
  | .readWindowCall _ _ _ => true
  | _ => false

/-- True exactly on `config.pushData` events. -/
def TableEvent.isConfigPushData : TableEvent → Bool
  | .configPushData _ => true
  | _ => false

/-- True exactly on `this.props.pushData` events. -/
def TableEvent.isPropsPushData : TableEvent → Bool
  | .propsPushData _ => true
  | _ => false

/-- Number of `onError` invocations in an event list. -/
def countOnError (es : List TableEvent) : Nat :=
  es.countP TableEvent.isOnError

/-- Number of `execution.execute()` invocations in an event list. -/
def countExecuteCalls (es : List TableEvent) : Nat :=
  es.countP TableEvent.isExecuteCall

/-- Number of `readWindow` invocations in an event list. -/
def countReadWindowCalls (es : List TableEvent) : Nat :=
  es.countP TableEvent.isReadWindowCall

/-- Number of `config.pushData` invocations in an event list. -/
def countConfigPushData (es : List TableEvent) : Nat :=
  es.countP TableEvent.isConfigPushData

/-- Number of `this.props.pushData` invocations in an event list. -/
def countPropsPushData (es : List TableEvent) : Nat :=
  es.countP TableEvent.isPropsPushData

/-- Whether the run's outcome is decided at a continuation that sees the
`abandoned` flag set: at the execute continuation when execute rejects, at the
read continuation otherwise.  Exactly these runs take an early `return
undefined` and resolve with the "no result" sentinel. -/
def Scenario.suppressed (s : Scenario) : Bool :=
  match s.executeOutcome with
  | .error _ => s.abandonedAtExecuteSettle
  | .ok _ => s.abandonedAtReadSettle

/-- State of the `abandoned` field of a `TableFacadeInitializer` instance. -/
structure InitState where
  abandoned : Bool
  deriving DecidableEq, Repr

/-- Failure raised by `invariant` from `ts-invariant`: a thrown
`InvariantError`, signalling a caller-side precondition violation. -/
inductive InvariantViolation where
  | violation
  deriving DecidableEq, Repr

/-- Shallow embedding of `TableFacadeInitializer.abandon` (source lines
33–37): `invariant(!this.abandoned); this.abandoned = true;` — throws when the
flag is already set, otherwise sets it. -/
def abandon (st : InitState) : Except InvariantViolation InitState :=
  if st.abandoned then .error .violation
  else .ok { abandoned := true }

attribute [simp] initRun InitRun.events InitRun.callbacksWhileAbandoned
  Scenario.abandonedAtStart Scenario.abandonedAtExecuteSettle Scenario.abandonedAtReadSettle
  Scenario.suppressed createTableFacade TableFacade.getAvailableDrillTargets
  getAvailableDrillTargets getAvailableDrillTargetsFromExecutionResult dataViewFacadeFor
  convertError isNoDataError isUnexpectedResponseError errorDataView
  countOnError countExecuteCalls countReadWindowCalls countConfigPushData countPropsPushData
  TableEvent.isOnError TableEvent.isExecuteCall TableEvent.isReadWindowCall
  TableEvent.isConfigPushData TableEvent.isPropsPushData TableEvent.isCallbackEvent

/-- Concrete execution handle used by the witness scenarios. -/
def wExecution : IPreparedExecution := ⟨7⟩

/-- Concrete props used by the witness scenarios. -/
def wProps : TableProps := ⟨25, none⟩

/-- Concrete execution result used by the witness scenarios. -/
def wResult : IExecutionResult := ⟨3⟩

/-- Concrete data view used by the witness scenarios. -/
def wDataView : IDataView := ⟨11⟩

/-- Scenario in which `abandon()` is called before `initialize()` even starts:
both asynchronous steps would succeed, but the flag is already set when the
synchronous part of `initialize` runs. -/
def abandonedBeforeStartScenario : Scenario :=
  { execution := wExecution, props := wProps, executeOutcome := .ok wResult,
    readOutcome := .ok wDataView, abandonAt := .beforeStart }

/-- Scenario in which both steps succeed and `abandon()` is never called. -/
def successScenario : Scenario :=
  { execution := wExecution, props := wProps, executeOutcome := .ok wResult,
    readOutcome := .ok wDataView, abandonAt := .never }

/-- Scenario in which `abandon()` arrives while the execute call is still in
flight; the execute and read-window operations themselves would succeed. -/
def abandonedInFlightScenario : Scenario :=
  { execution := wExecution, props := wProps, executeOutcome := .ok wResult,
    readOutcome := .ok wDataView, abandonAt := .beforeExecuteSettles }

/-- Scenario in which `abandon()` arrives between the execute settling and the
read-window settling. -/
def abandonedBeforeReadScenario : Scenario :=
  { execution := wExecution, props := wProps, executeOutcome := .ok wResult,
    readOutcome := .ok wDataView, abandonAt := .beforeReadSettles }

/-- Scenario in which execute succeeds but the read-window call rejects with
an "unexpected response" error; never abandoned. -/
def unexpectedResponseScenario : Scenario :=
  { execution := wExecution, props := wProps, executeOutcome := .ok wResult,
    readOutcome := .error .unexpectedResponse, abandonAt := .never }

/-- Scenario in which execute succeeds but the read-window call rejects with a
"no data" error that carries an attached data view; never abandoned. -/
def noDataWithViewScenario : Scenario :=
  { execution := wExecution, props := wProps, executeOutcome := .ok wResult,
    readOutcome := .error (.noData (some wDataView)), abandonAt := .never }

/-- Scenario in which the execute call itself rejects; never abandoned. -/
def executeFailsScenario : Scenario :=
  { execution := wExecution, props := wProps, executeOutcome := .error (.other 4),
    readOutcome := .ok wDataView, abandonAt := .never }

/-- C1: for every `initialize()` call — every combination of execute outcome,
read-window outcome, and abandon timing — exactly one terminal outcome occurs:
resolve with a facade, resolve with `undefined` after exactly one `onError`
report, or resolve with the no-result sentinel (also `undefined`) with no
error report after abandonment.  The returned promise resolves rather than
rejects: `initRun` is a total function into `InitRun`, whose `outcome` field
is the resolution value. -/
theorem initRun_exactly_one_terminal_outcome (s : Scenario) :
    ((∃ t, (initRun s).outcome = some t) ∧
       ¬((initRun s).outcome = none ∧ countOnError (initRun s).events = 1) ∧
       ¬((initRun s).outcome = none ∧ countOnError (initRun s).events = 0 ∧
           s.suppressed = true)) ∨
    (¬(∃ t, (initRun s).outcome = some t) ∧
       ((initRun s).outcome = none ∧ countOnError (initRun s).events = 1) ∧
       ¬((initRun s).outcome = none ∧ countOnError (initRun s).events = 0 ∧
           s.suppressed = true)) ∨
    (¬(∃ t, (initRun s).outcome = some t) ∧
       ¬((initRun s).outcome = none ∧ countOnError (initRun s).events = 1) ∧
       ((initRun s).outcome = none ∧ countOnError (initRun s).events = 0 ∧
           s.suppressed = true)) := by
  rcases s with ⟨ex, pr, ((_ | dv₁) | _ | c₁) | r, ((_ | dv₂) | _ | c₂) | dv, ab⟩ <;>
    cases ab <;> simp_all [List.countP_cons, List.countP_nil]

/-- C2: when execute succeeds, the read-window succeeds, and the instance is
not abandoned at the read continuation, the run is exactly: synchronous
`onLoadingChanged({isLoading:true})`, the `execute()` call, the
`readWindow([0,0], [pageSize, COLS_PER_PAGE])` call on the returned result,
then `onLoadingChanged({isLoading:false})`, one `onExportReady` with the
export closure over the facade and the export title, one `pushData` with the
data view and the drill targets computed from the facade, and resolution with
a facade wrapping exactly that execution result and data view. -/
theorem initRun_success_path (s : Scenario) (r : IExecutionResult) (dv : IDataView)
    (h1 : s.executeOutcome = .ok r) (h2 : s.readOutcome = .ok dv)
    (h3 : s.abandonedAtReadSettle = false) :
    initRun s =
      { trace :=
          [(false, .onLoadingChanged true),
           (false, .executeCall s.execution),
           (false, .readWindowCall r (0, 0) (s.props.pageSize, COLS_PER_PAGE)),
           (false, .onLoadingChanged false),
           (false, .onExportReady ⟨⟨r, dv, s.props⟩, s.props.exportTitle⟩),
           (false, .configPushData ⟨some dv, .ofTableFacade ⟨r, dv, s.props⟩⟩)],
        outcome := some ⟨r, dv, s.props⟩ } := by
  rcases s with ⟨ex, pr, eo, ro, ab⟩
  cases ab <;> simp_all

/-- Witness for C2: the success-path trace at a concrete scenario. -/
theorem initRun_success_path_witness :
    successScenario.executeOutcome = .ok wResult ∧
    successScenario.readOutcome = .ok wDataView ∧
    successScenario.abandonedAtReadSettle = false ∧
    initRun successScenario =
      { trace :=
          [(false, .onLoadingChanged true),
           (false, .executeCall successScenario.execution),
           (false, .readWindowCall wResult (0, 0)
              (successScenario.props.pageSize, COLS_PER_PAGE)),
           (false, .onLoadingChanged false),
           (false, .onExportReady
              ⟨⟨wResult, wDataView, successScenario.props⟩,
               successScenario.props.exportTitle⟩),
           (false, .configPushData
              ⟨some wDataView, .ofTableFacade ⟨wResult, wDataView, successScenario.props⟩⟩)],
        outcome := some ⟨wResult, wDataView, successScenario.props⟩ } :=
  ⟨rfl, rfl, rfl, initRun_success_path successScenario wResult wDataView rfl rfl rfl⟩

/-- C3: when `abandon()` is called after `initialize()` has started but before
the execute promise settles, no configuration callback fires from that point
on (the callbacks emitted while the flag is set are none), the run resolves
with the no-result sentinel, and the underlying operations still run: the
execute call happens exactly once, and when it succeeds the read-window call
still happens exactly once — abandonment does not cancel them. -/
theorem abandon_before_execute_settles (s : Scenario)
    (h : s.abandonAt = .beforeExecuteSettles) :
    (initRun s).outcome = none ∧
    (initRun s).callbacksWhileAbandoned = [] ∧
    countExecuteCalls (initRun s).events = 1 ∧
    (∀ r, s.executeOutcome = .ok r → countReadWindowCalls (initRun s).events = 1) := by
  rcases s with ⟨ex, pr, ((_ | dv₁) | _ | c₁) | r, ((_ | dv₂) | _ | c₂) | dv, ab⟩ <;>
    simp_all [List.countP_cons, List.countP_nil]

/-- Witness for C3: abandonment while the execute call is in flight, at a
concrete scenario in which both operations would succeed. -/
theorem abandon_before_execute_settles_witness :
    abandonedInFlightScenario.abandonAt = .beforeExecuteSettles ∧
    ((initRun abandonedInFlightScenario).outcome = none ∧
     (initRun abandonedInFlightScenario).callbacksWhileAbandoned = [] ∧
     countExecuteCalls (initRun abandonedInFlightScenario).events = 1 ∧
     (∀ r, abandonedInFlightScenario.executeOutcome = .ok r →
        countReadWindowCalls (initRun abandonedInFlightScenario).events = 1)) :=
  ⟨rfl, abandon_before_execute_settles abandonedInFlightScenario rfl⟩

/-- Counterexample to C4 as stated: in the interleaving where `abandon()` is
called before `initialize()` starts, the synchronous
`onLoadingChanged({isLoading:true})` is emitted while the `abandoned` flag is
already `true` — the synchronous part of `initialize` never consults the
flag — so it is not the case that no configuration callback is ever invoked
once the flag is set. -/
theorem abandoned_before_start_callback_fires :
    (initRun abandonedBeforeStartScenario).callbacksWhileAbandoned =
      [TableEvent.onLoadingChanged true] ∧
    (initRun abandonedBeforeStartScenario).callbacksWhileAbandoned ≠ [] := by
  decide

/-- C4 (amended): for every interleaving in which `abandon()` is not called
before `initialize()` starts, no configuration callback (`onLoadingChanged`,
`onExportReady`, either `pushData`, `onError`) is invoked while the
`abandoned` flag is `true`, regardless of how the pending execute and
read-window operations settle. -/
theorem no_callback_after_abandon (s : Scenario) (h : s.abandonAt ≠ .beforeStart) :
    (initRun s).callbacksWhileAbandoned = [] := by
  rcases s with ⟨ex, pr, ((_ | dv₁) | _ | c₁) | r, ((_ | dv₂) | _ | c₂) | dv, ab⟩ <;>
    cases ab <;> simp_all [List.countP_cons, List.countP_nil]

/-- Witness for amended C4: abandonment between the two settle points at a
concrete scenario emits no callback while the flag is set. -/
theorem no_callback_after_abandon_witness :
    abandonedBeforeReadScenario.abandonAt ≠ AbandonPoint.beforeStart ∧
    (initRun abandonedBeforeReadScenario).callbacksWhileAbandoned = [] :=
  ⟨by decide, no_callback_after_abandon abandonedBeforeReadScenario (by decide)⟩

/-- C5: `abandon()` on a fresh instance sets the `abandoned` flag; a second
`abandon()` on the same instance violates the `invariant(!this.abandoned)`
precondition and fails with a thrown assertion, so the flag transitions from
`false` to `true` exactly once. -/
theorem abandon_flag_transitions_once :
    abandon { abandoned := false } = .ok { abandoned := true } ∧
    abandon { abandoned := true } = .error .violation := by
  decide

/-- Counterexample to C6 as stated: when execute succeeds, the read-window
call rejects with an "unexpected response" error, and the instance is not
abandoned, the configuration callback set's `pushData` (`config.pushData`) is
called zero times, not exactly once — the source invokes
`this.props.pushData!` on this branch. -/
theorem unexpected_response_config_pushData_not_called :
    countConfigPushData (initRun unexpectedResponseScenario).events = 0 ∧
    countConfigPushData (initRun unexpectedResponseScenario).events ≠ 1 ∧
    countPropsPushData (initRun unexpectedResponseScenario).events = 1 := by
  decide

/-- C6 (amended): when execute succeeds, the read-window call rejects with an
"unexpected response" error, and the instance is not abandoned, the props'
`pushData` (not the configuration callback set's) is called exactly once with
drill targets computed from the execution result, `onError` fires exactly once
with the converted error and the execution handle, and the run resolves with
`undefined`. -/
theorem unexpected_response_props_pushData (s : Scenario) (r : IExecutionResult)
    (h1 : s.executeOutcome = .ok r) (h2 : s.readOutcome = .error .unexpectedResponse)
    (h3 : s.abandonedAtReadSettle = false) :
    (initRun s).events =
      [.onLoadingChanged true, .executeCall s.execution,
       .readWindowCall r (0, 0) (s.props.pageSize, COLS_PER_PAGE),
       .propsPushData ⟨none, .ofExecutionResult r⟩,
       .onError (convertError .unexpectedResponse) s.execution] ∧
    (initRun s).outcome = none := by
  rcases s with ⟨ex, pr, eo, ro, ab⟩
  cases ab <;> simp_all

/-- Witness for amended C6: the unexpected-response trace at a concrete
scenario. -/
theorem unexpected_response_props_pushData_witness :
    unexpectedResponseScenario.executeOutcome = .ok wResult ∧
    unexpectedResponseScenario.readOutcome = .error .unexpectedResponse ∧
    unexpectedResponseScenario.abandonedAtReadSettle = false ∧
    ((initRun unexpectedResponseScenario).events =
      [.onLoadingChanged true, .executeCall unexpectedResponseScenario.execution,
       .readWindowCall wResult (0, 0)
         (unexpectedResponseScenario.props.pageSize, COLS_PER_PAGE),
       .propsPushData ⟨none, .ofExecutionResult wResult⟩,
       .onError (convertError .unexpectedResponse) unexpectedResponseScenario.execution] ∧
     (initRun unexpectedResponseScenario).outcome = none) :=
  ⟨rfl, rfl, rfl, unexpected_response_props_pushData unexpectedResponseScenario wResult rfl rfl rfl⟩

/-- C7: when execute succeeds, the read-window call rejects with a "no data"
error carrying an attached data view, and the instance is not abandoned, the
run emits exactly one `config.pushData` with drill targets derived from the
facade over that attached data view, then `onLoadingChanged({isLoading:false})`,
then exactly one `onError` with the converted error and the execution handle,
and resolves with `undefined`. -/
theorem no_data_with_view_trace (s : Scenario) (r : IExecutionResult) (dv : IDataView)
    (h1 : s.executeOutcome = .ok r) (h2 : s.readOutcome = .error (.noData (some dv)))
    (h3 : s.abandonedAtReadSettle = false) :
    (initRun s).events =
      [.onLoadingChanged true, .executeCall s.execution,
       .readWindowCall r (0, 0) (s.props.pageSize, COLS_PER_PAGE),
       .configPushData ⟨none, .ofDataViewFacade ⟨dv⟩⟩,
       .onLoadingChanged false,
       .onError (convertError (.noData (some dv))) s.execution] ∧
    (initRun s).outcome = none := by
  rcases s with ⟨ex, pr, eo, ro, ab⟩
  cases ab <;> simp_all

/-- Witness for C7: the no-data-with-view trace at a concrete scenario. -/
theorem no_data_with_view_trace_witness :
    noDataWithViewScenario.executeOutcome = .ok wResult ∧
    noDataWithViewScenario.readOutcome = .error (.noData (some wDataView)) ∧
    noDataWithViewScenario.abandonedAtReadSettle = false ∧
    ((initRun noDataWithViewScenario).events =
      [.onLoadingChanged true, .executeCall noDataWithViewScenario.execution,
       .readWindowCall wResult (0, 0)
         (noDataWithViewScenario.props.pageSize, COLS_PER_PAGE),
       .configPushData ⟨none, .ofDataViewFacade ⟨wDataView⟩⟩,
       .onLoadingChanged false,
       .onError (convertError (.noData (some wDataView))) noDataWithViewScenario.execution] ∧
     (initRun noDataWithViewScenario).outcome = none) :=
  ⟨rfl, rfl, rfl, no_data_with_view_trace noDataWithViewScenario wResult wDataView rfl rfl rfl⟩

/-- C8: when the execute call rejects, the read-window call is never invoked
and the run resolves with `undefined`; if the instance is not abandoned at the
execute continuation the trace ends with exactly one `onError` carrying the
converted error and the execution handle and no other callback after the
rejection, while if it is abandoned there the trace ends at the execute call
with no callback emitted in response to the rejection (the no-result
sentinel). -/
theorem execute_rejects_trace (s : Scenario) (e : TableError)
    (h : s.executeOutcome = .error e) :
    (initRun s).outcome = none ∧
    countReadWindowCalls (initRun s).events = 0 ∧
    (s.abandonedAtExecuteSettle = false →
      (initRun s).events =
        [.onLoadingChanged true, .executeCall s.execution,
         .onError (convertError e) s.execution]) ∧
    (s.abandonedAtExecuteSettle = true →
      (initRun s).events = [.onLoadingChanged true, .executeCall s.execution]) := by
  rcases s with ⟨ex, pr, eo, ro, ab⟩
  cases ab <;> simp_all [List.countP_cons, List.countP_nil]

/-- Witness for C8: a concrete scenario whose execute call rejects. -/
theorem execute_rejects_trace_witness :
    executeFailsScenario.executeOutcome = .error (.other 4) ∧
    ((initRun executeFailsScenario).outcome = none ∧
     countReadWindowCalls (initRun executeFailsScenario).events = 0 ∧
     (executeFailsScenario.abandonedAtExecuteSettle = false →
       (initRun executeFailsScenario).events =
         [.onLoadingChanged true, .executeCall executeFailsScenario.execution,
          .onError (convertError (.other 4)) executeFailsScenario.execution]) ∧
     (executeFailsScenario.abandonedAtExecuteSettle = true →
       (initRun executeFailsScenario).events =
         [.onLoadingChanged true, .executeCall executeFailsScenario.execution])) :=
  ⟨rfl, execute_rejects_trace executeFailsScenario (.other 4) rfl⟩

/-- C9: every run invokes `execute()` exactly once on the execution handle,
and invokes `readWindow` exactly once on the resulting execution result when
execute succeeds (and never when there is no result), for every outcome of the
two asynchronous steps and every abandon timing — no internal retries. -/
theorem exactly_one_execute_one_readWindow (s : Scenario) :
    countExecuteCalls (initRun s).events = 1 ∧
    countReadWindowCalls (initRun s).events =
      (match s.executeOutcome with | .ok _ => 1 | .error _ => 0) := by
  rcases s with ⟨ex, pr, ((_ | dv₁) | _ | c₁) | r, ((_ | dv₂) | _ | c₂) | dv, ab⟩ <;>
    cases ab <;> simp_all [List.countP_cons, List.countP_nil]

/-- C10: the no-result sentinel returned after abandonment is the same
resolution value (`undefined`, embedded as `none` in the
`Option TableFacade`-valued `outcome` of `Promise<TableFacade | undefined>`)
as the resolution value of every error path: an abandoned run and any run that
resolved via an error path — any run in which `onError` fired, whether the
execute call or the read-window call rejected — resolve with equal values, so
the caller cannot tell them apart by the resolved value alone. -/
theorem abandoned_error_same_resolution (s₁ s₂ : Scenario)
    (h₁ : s₁.suppressed = true)
    (h₂ : countOnError (initRun s₂).events ≠ 0) :
    (initRun s₁).outcome = none ∧ (initRun s₁).outcome = (initRun s₂).outcome := by
  have o₁ : (initRun s₁).outcome = none := by
    clear h₂
    rcases s₁ with ⟨ex, pr, ((_ | dv₁) | _ | c₁) | r, ((_ | dv₂) | _ | c₂) | dv, ab⟩ <;>
      cases ab <;> simp_all
  have o₂ : (initRun s₂).outcome = none := by
    clear h₁ o₁
    rcases s₂ with ⟨ex, pr, ((_ | dv₁) | _ | c₁) | r, ((_ | dv₂) | _ | c₂) | dv, ab⟩ <;>
      cases ab <;> simp_all [List.countP_cons, List.countP_nil]
  exact ⟨o₁, o₁.trans o₂.symm⟩

/-- Witness for C10: an abandoned run and a run that reported an error at
concrete scenarios resolve with the same value. -/
theorem abandoned_error_same_resolution_witness :
    abandonedInFlightScenario.suppressed = true ∧
    countOnError (initRun executeFailsScenario).events ≠ 0 ∧
    ((initRun abandonedInFlightScenario).outcome = none ∧
     (initRun abandonedInFlightScenario).outcome = (initRun executeFailsScenario).outcome) :=
  ⟨rfl, by decide,
    abandoned_error_same_resolution abandonedInFlightScenario executeFailsScenario rfl
      (by decide)⟩

end GdcPivot
